import Mathlib

/-
  Verification development for the `aws_sqs_consumer` package
  (src/aws_sqs_consumer/consumer.py).

  The consumer control loop is embedded shallowly: every transport call and
  every handler/callback invocation is recorded as an `Event` in a trace, and
  user-supplied handlers plus the opaque SQS client are abstracted by a
  `Behavior` record saying, for each call, whether it returns normally or
  raises which exception.  Python exception propagation becomes an
  `Option PyExc` outcome threaded through each function; Python's implicit
  exception chaining (`__context__` set when raising inside an `except`
  block) is modelled by the `context` argument of `PyExc.sqsException`.
-/

namespace AwsSqsConsumer

/-- Raw message record as returned by the transport receive call
(`response["Messages"]` elements in `Consumer.start`). -/
structure RawMessage where
  MessageId : String
  ReceiptHandle : String
  Body : String
deriving DecidableEq, Repr

/-- Normalized message record; mirrors the fields of
`aws_sqs_consumer.message.Message` that `consumer.py` reads
(`MessageId`, `ReceiptHandle`) plus the payload body. -/
structure Message where
  MessageId : String
  ReceiptHandle : String
  Body : String
deriving DecidableEq, Repr

/-- Modelled from the spec: `Message.parse` lives in the repository's
`message.py`, which is not under `src/`; the spec (section 3) describes a
Message as a normalized record created at receive time from one raw
transport record, carrying the id, the receipt handle and the body. -/
def Message.parse (r : RawMessage) : Message :=
  { MessageId := r.MessageId, ReceiptHandle := r.ReceiptHandle, Body := r.Body }

/-- Python exception values that can flow through the consumer core. -/
inductive PyExc where
  /-- an arbitrary exception raised by user handler or callback code -/
  | userExc (tag : Nat)
  /-- an arbitrary exception raised by the boto3 sqs client -/
  | transportExc (tag : Nat)
  /-- `SQSException(msg)` raised inside an `except` block, so Python chains
  the original exception as `__context__` -/
  | sqsException (msg : String) (context : PyExc)
  /-- `ValueError(msg)` -/
  | valueError (msg : String)
  /-- bare `Exception(msg)` -/
  | exception (msg : String)
  /-- `AttributeError`, e.g. calling a method on `None` -/
  | attributeError (msg : String)
deriving DecidableEq, Repr

/-- Observable events of one consumer run: every outgoing transport call and
every handler/callback invocation, in order. -/
inductive Event where
  /-- `self._sqs_client.receive_message(**self._sqs_client_params)` -/
  | receiveCall
  /-- `self.handle_message(message)` -/
  | handleMessageCall (m : Message)
  /-- `self.handle_message_batch(messages)` -/
  | handleMessageBatchCall (ms : List Message)
  /-- `self._sqs_client.delete_message(QueueUrl=..., ReceiptHandle=h)` -/
  | deleteMessageCall (h : String)
  /-- `self._sqs_client.delete_message_batch(QueueUrl=..., Entries=entries)`
  where each entry is an `(Id, ReceiptHandle)` pair -/
  | deleteMessageBatchCall (entries : List (String × String))
  /-- `self.handle_processing_exception(message, exception)` -/
  | handleProcessingExceptionCall (m : Message) (e : PyExc)
  /-- `self.handle_batch_processing_exception(messages, exception)` -/
  | handleBatchProcessingExceptionCall (ms : List Message) (e : PyExc)
  /-- `self._polling_wait()` (a `time.sleep`) -/
  | pollingWait
deriving DecidableEq, Repr

/-- Abstraction of the collaborators: for each call the environment says
whether it returns normally (`none`) or raises an exception (`some e`).
`handle_message`, `handle_message_batch` and the two exception callbacks are
the user-overridable methods; `client_delete_message` (keyed by receipt
handle) and `client_delete_message_batch` (keyed by the entry list) are the
opaque sqs client delete operations. -/
structure Behavior where
  handle_message : Message → Option PyExc
  handle_message_batch : List Message → Option PyExc
  client_delete_message : String → Option PyExc
  client_delete_message_batch : List (String × String) → Option PyExc
  handle_processing_exception : Message → PyExc → Option PyExc
  handle_batch_processing_exception : List Message → PyExc → Option PyExc

/-- `Consumer._delete_message`: calls the client delete; any exception from
the transport is caught and `SQSException("Failed to delete message")` is
raised instead (the original becomes its Python `__context__`). Returns the
emitted events and the propagating exception, if any. -/
def delete_message (B : Behavior) (m : Message) : List Event × Option PyExc :=
  match B.client_delete_message m.ReceiptHandle with
  | none => ([Event.deleteMessageCall m.ReceiptHandle], none)
  | some e => ([Event.deleteMessageCall m.ReceiptHandle],
      some (PyExc.sqsException "Failed to delete message" e))

/-- The `Entries` list built by `Consumer._delete_message_batch`:
`{"Id": message.MessageId, "ReceiptHandle": message.ReceiptHandle}` for each
message. -/
def batchEntries (messages : List Message) : List (String × String) :=
  messages.map (fun m => (m.MessageId, m.ReceiptHandle))

/-- `Consumer._delete_message_batch`: calls the client batch delete with the
`(Id, ReceiptHandle)` entries; any exception from the transport is caught and
`SQSException("Failed to delete message batch")` is raised instead. -/
def delete_message_batch (B : Behavior) (messages : List Message) :
    List Event × Option PyExc :=
  match B.client_delete_message_batch (batchEntries messages) with
  | none => ([Event.deleteMessageBatchCall (batchEntries messages)], none)
  | some e => ([Event.deleteMessageBatchCall (batchEntries messages)],
      some (PyExc.sqsException "Failed to delete message batch" e))

/-- `Consumer._process_message`:
`try: handle_message(m); _delete_message(m)`
`except Exception as e: handle_processing_exception(m, e)`
`finally: _polling_wait()`.
An exception raised by the exception callback itself is not caught; the
`finally` sleep still runs before it propagates. -/
def process_message (B : Behavior) (m : Message) : List Event × Option PyExc :=
  let tryPart : List Event × Option PyExc :=
    match B.handle_message m with
    | some e => ([Event.handleMessageCall m], some e)
    | none =>
      let d := delete_message B m
      (Event.handleMessageCall m :: d.1, d.2)
  match tryPart with
  | (evs, none) => (evs ++ [Event.pollingWait], none)
  | (evs, some e) =>
    (evs ++ [Event.handleProcessingExceptionCall m e, Event.pollingWait],
     B.handle_processing_exception m e)

/-- `Consumer._process_message_batch`: same shape as `process_message`, over
the whole batch, with `_delete_message_batch` and
`handle_batch_processing_exception`. -/
def process_message_batch (B : Behavior) (messages : List Message) :
    List Event × Option PyExc :=
  let tryPart : List Event × Option PyExc :=
    match B.handle_message_batch messages with
    | some e => ([Event.handleMessageBatchCall messages], some e)
    | none =>
      let d := delete_message_batch B messages
      (Event.handleMessageBatchCall messages :: d.1, d.2)
  match tryPart with
  | (evs, none) => (evs ++ [Event.pollingWait], none)
  | (evs, some e) =>
    (evs ++ [Event.handleBatchProcessingExceptionCall messages e,
             Event.pollingWait],
     B.handle_batch_processing_exception messages e)

/-- Outcome of one `receive_message` call: a (possibly empty) list of raw
records, or an exception raised by the transport. -/
inductive ReceiveResult where
  | ok (raw : List RawMessage)
  | raise (e : PyExc)
deriving DecidableEq, Repr

/-- The `while self._running` loop body of `Consumer.start`, driven by a
finite script of receive outcomes (one per iteration; an exhausted script
models the `running` flag having been observed false at the loop top).
For each iteration: receive; on an empty response `_polling_wait` and
continue; otherwise parse every record and dispatch `messages[0]` to
`_process_message` when `batch_size == 1`, else the whole list to
`_process_message_batch`.  An exception propagating from receive or from a
dispatch terminates the loop and escapes `start`. -/
def runLoop (B : Behavior) (batch_size : Int) :
    List ReceiveResult → List Event × Option PyExc
  | [] => ([], none)
  | ReceiveResult.raise e :: _ => ([Event.receiveCall], some e)
  | ReceiveResult.ok [] :: rest =>
    let k := runLoop B batch_size rest
    (Event.receiveCall :: Event.pollingWait :: k.1, k.2)
  | ReceiveResult.ok (r :: rs) :: rest =>
    let messages := (r :: rs).map Message.parse
    let d :=
      if batch_size = 1 then process_message B (Message.parse r)
      else process_message_batch B messages
    match d.2 with
    | some e => (Event.receiveCall :: d.1, some e)
    | none =>
      let k := runLoop B batch_size rest
      (Event.receiveCall :: (d.1 ++ k.1), k.2)

/-- Consumer object state after construction: the configuration fields of
`Consumer.__init__` (the opaque sqs client itself is abstracted away) plus
the mutable `_sqs_thread` handle and `_running` flag. -/
structure Consumer where
  queue_url : String
  attribute_names : List String
  message_attribute_names : List String
  batch_size : Int
  wait_time_seconds : Int
  visibility_timeout_seconds : Option Int
  polling_wait_time_ms : Int
  daemon : Bool
  thread_name_stem : String
  threaded : Bool
  sqs_thread : Option String
  running : Bool
deriving DecidableEq, Repr

/-- Python truthiness of an optional string argument (`if region:`). -/
def strTruthy : Option String → Bool
  | none => false
  | some s => s ≠ ""

/-- `Consumer.__init__`: assigns the configuration, raises
`ValueError("Batch size should be between 1 and 10, both inclusive")` when
`not 1 <= batch_size <= 10`, then resolves the region (the `region`
parameter, else the `AWS_DEFAULT_REGION` environment variable modelled by
`env_region`, else a bare `Exception`), sets `_sqs_thread = None` and
`_running = False`.  Construction of the boto3 client itself is opaque. -/
def Consumer.init (queue_url : String) (region : Option String)
    (env_region : Option String)
    (attribute_names message_attribute_names : List String)
    (batch_size : Int) (wait_time_seconds : Int)
    (visibility_timeout_seconds : Option Int) (polling_wait_time_ms : Int)
    (daemon : Bool) (thread_name : String) (threaded : Bool) :
    Except PyExc Consumer :=
  if ¬ (1 ≤ batch_size ∧ batch_size ≤ 10) then
    Except.error (PyExc.valueError
      "Batch size should be between 1 and 10, both inclusive")
  else if strTruthy region ∨ strTruthy env_region then
    Except.ok
      { queue_url := queue_url
        attribute_names := attribute_names
        message_attribute_names := message_attribute_names
        batch_size := batch_size
        wait_time_seconds := wait_time_seconds
        visibility_timeout_seconds := visibility_timeout_seconds
        polling_wait_time_ms := polling_wait_time_ms
        daemon := daemon
        thread_name_stem := "aws_sqs_thread" ++ thread_name
        threaded := threaded
        sqs_thread := none
        running := false }
  else
    Except.error (PyExc.exception
      "Please specify the region parameter or set AWS_DEFAULT_REGION env variable.")

/-- `Consumer.stop`: sets `_running = False`; then, when `daemon` is false,
calls `self._sqs_thread.join()` — an `AttributeError` when `_sqs_thread` is
still `None` (no worker was ever started), and otherwise a join that blocks
until the worker exits and may legally be repeated. -/
def Consumer.stop (c : Consumer) : Except PyExc Consumer :=
  let c2 : Consumer := { c with running := false }
  if c2.daemon then Except.ok c2
  else
    match c2.sqs_thread with
    | none => Except.error (PyExc.attributeError
        "NoneType object has no attribute join")
    | some _ => Except.ok c2

/-- A consumer object together with the background workers currently polling
on its behalf (each worker is the name of a live thread whose target is
`self.start`). -/
structure SpawnState where
  consumer : Consumer
  live_workers : List String
deriving DecidableEq, Repr

/-- `Consumer.start_consumer`: when `threaded` is false, runs `start()`
inline on the caller (no worker thread is created); otherwise creates a new
thread named `thread_name_prefix + str(uuid4())` (the fresh uuid is the
`uuid` argument), stores it in `_sqs_thread` and starts it.  Nothing guards
against a worker already running. -/
def start_consumer (s : SpawnState) (uuid : String) : SpawnState :=
  if ¬ s.consumer.threaded then s
  else
    let name := s.consumer.thread_name_stem ++ uuid
    { consumer := { s.consumer with sqs_thread := some name }
      live_workers := s.live_workers ++ [name] }

/-! Concrete sample data used to exercise the model on closed inputs. -/

/-- A sample raw message. -/
def rawA : RawMessage :=
  { MessageId := "id-a", ReceiptHandle := "rh-a", Body := "body-a" }

/-- A second sample raw message. -/
def rawB : RawMessage :=
  { MessageId := "id-b", ReceiptHandle := "rh-b", Body := "body-b" }

/-- Collaborators that always return normally. -/
def okB : Behavior :=
  { handle_message := fun _ => none
    handle_message_batch := fun _ => none
    client_delete_message := fun _ => none
    client_delete_message_batch := fun _ => none
    handle_processing_exception := fun _ _ => none
    handle_batch_processing_exception := fun _ _ => none }

/-- Collaborators whose user handlers raise; callbacks and transport are fine. -/
def failHandlerB : Behavior :=
  { okB with
    handle_message := fun _ => some (PyExc.userExc 1)
    handle_message_batch := fun _ => some (PyExc.userExc 2) }

/-- Collaborators whose transport delete operations raise. -/
def failDeleteB : Behavior :=
  { okB with
    client_delete_message := fun _ => some (PyExc.transportExc 3)
    client_delete_message_batch := fun _ => some (PyExc.transportExc 4) }

/-- Collaborators whose handlers raise and whose exception callbacks also raise. -/
def failCallbackB : Behavior :=
  { failHandlerB with
    handle_processing_exception := fun _ _ => some (PyExc.userExc 5)
    handle_batch_processing_exception := fun _ _ => some (PyExc.userExc 6) }

/-! Characterization lemmas: the trace and outcome of each operation in each
case of the collaborators' behavior. -/

/-- Handler and transport delete both return: handle, delete, sleep; no exception. -/
theorem process_message_ok (B : Behavior) (m : Message)
    (h1 : B.handle_message m = none)
    (h2 : B.client_delete_message m.ReceiptHandle = none) :
    process_message B m =
      ([Event.handleMessageCall m, Event.deleteMessageCall m.ReceiptHandle,
        Event.pollingWait], none) := by
  simp [process_message, delete_message, h1, h2]

/-- Handler returns but the transport delete raises: the wrapped
`SQSException` is routed to `handle_processing_exception`. -/
theorem process_message_delete_fail (B : Behavior) (m : Message) (e : PyExc)
    (h1 : B.handle_message m = none)
    (h2 : B.client_delete_message m.ReceiptHandle = some e) :
    process_message B m =
      ([Event.handleMessageCall m, Event.deleteMessageCall m.ReceiptHandle,
        Event.handleProcessingExceptionCall m
          (PyExc.sqsException "Failed to delete message" e),
        Event.pollingWait],
       B.handle_processing_exception m
         (PyExc.sqsException "Failed to delete message" e)) := by
  simp [process_message, delete_message, h1, h2]

/-- Handler raises: no delete call at all, the exception goes to
`handle_processing_exception`. -/
theorem process_message_handler_fail (B : Behavior) (m : Message) (e : PyExc)
    (h1 : B.handle_message m = some e) :
    process_message B m =
      ([Event.handleMessageCall m,
        Event.handleProcessingExceptionCall m e, Event.pollingWait],
       B.handle_processing_exception m e) := by
  simp [process_message, h1]

/-- Batch handler and transport batch delete both return. -/
theorem process_message_batch_ok (B : Behavior) (messages : List Message)
    (h1 : B.handle_message_batch messages = none)
    (h2 : B.client_delete_message_batch (batchEntries messages) = none) :
    process_message_batch B messages =
      ([Event.handleMessageBatchCall messages,
        Event.deleteMessageBatchCall (batchEntries messages),
        Event.pollingWait], none) := by
  simp [process_message_batch, delete_message_batch, h1, h2]

/-- Batch handler returns but the transport batch delete raises. -/
theorem process_message_batch_delete_fail (B : Behavior)
    (messages : List Message) (e : PyExc)
    (h1 : B.handle_message_batch messages = none)
    (h2 : B.client_delete_message_batch (batchEntries messages) = some e) :
    process_message_batch B messages =
      ([Event.handleMessageBatchCall messages,
        Event.deleteMessageBatchCall (batchEntries messages),
        Event.handleBatchProcessingExceptionCall messages
          (PyExc.sqsException "Failed to delete message batch" e),
        Event.pollingWait],
       B.handle_batch_processing_exception messages
         (PyExc.sqsException "Failed to delete message batch" e)) := by
  simp [process_message_batch, delete_message_batch, h1, h2]

/-- Batch handler raises: no batch delete call. -/
theorem process_message_batch_handler_fail (B : Behavior)
    (messages : List Message) (e : PyExc)
    (h1 : B.handle_message_batch messages = some e) :
    process_message_batch B messages =
      ([Event.handleMessageBatchCall messages,
        Event.handleBatchProcessingExceptionCall messages e,
        Event.pollingWait],
       B.handle_batch_processing_exception messages e) := by
  simp [process_message_batch, h1]

/-- One non-empty iteration of the loop whose dispatch completes normally,
followed by the remaining script. -/
theorem runLoop_dispatch_ok (B : Behavior) (bs : Int) (r : RawMessage)
    (rs : List RawMessage) (rest : List ReceiveResult) (evs : List Event)
    (hd : (if bs = 1 then process_message B (Message.parse r)
           else process_message_batch B ((r :: rs).map Message.parse)) =
          (evs, none)) :
    runLoop B bs (ReceiveResult.ok (r :: rs) :: rest) =
      (Event.receiveCall :: (evs ++ (runLoop B bs rest).1),
       (runLoop B bs rest).2) := by
  simp only [runLoop, hd]

/-- One non-empty iteration of the loop whose dispatch propagates an
exception: the loop terminates, the rest of the script is never reached. -/
theorem runLoop_dispatch_fail (B : Behavior) (bs : Int) (r : RawMessage)
    (rs : List RawMessage) (rest : List ReceiveResult) (evs : List Event)
    (e : PyExc)
    (hd : (if bs = 1 then process_message B (Message.parse r)
           else process_message_batch B ((r :: rs).map Message.parse)) =
          (evs, some e)) :
    runLoop B bs (ReceiveResult.ok (r :: rs) :: rest) =
      (Event.receiveCall :: evs, some e) := by
  simp only [runLoop, hd]

/-- C1: with batch size 1 and a receive call returning exactly one message,
`handle_message` is invoked exactly once with that (parsed) message; if it
returns without raising, the delete call is issued exactly once with that
message's receipt handle; and `handle_message_batch` is never invoked in
that iteration. -/
theorem c1_single_dispatch (B : Behavior) (r : RawMessage) :
    ((runLoop B 1 [ReceiveResult.ok [r]]).1).count
        (Event.handleMessageCall (Message.parse r)) = 1 ∧
    (B.handle_message (Message.parse r) = none →
      ((runLoop B 1 [ReceiveResult.ok [r]]).1).count
        (Event.deleteMessageCall (Message.parse r).ReceiptHandle) = 1) ∧
    (∀ ms, Event.handleMessageBatchCall ms ∉
      (runLoop B 1 [ReceiveResult.ok [r]]).1) := by
  rcases h1 : B.handle_message (Message.parse r) with _ | e
  · rcases h2 : B.client_delete_message (Message.parse r).ReceiptHandle with _ | e2
    · refine ⟨?_, fun _ => ?_, ?_⟩ <;>
        simp [runLoop, process_message, delete_message, h1, h2, List.count_cons]
    · rcases h3 : B.handle_processing_exception (Message.parse r)
          (PyExc.sqsException "Failed to delete message" e2) with _ | e3 <;>
        refine ⟨?_, fun _ => ?_, ?_⟩ <;>
        simp [runLoop, process_message, delete_message, h1, h2, h3,
          List.count_cons]
  · rcases h3 : B.handle_processing_exception (Message.parse r) e with _ | e3 <;>
      refine ⟨?_, fun hnone => ?_, ?_⟩ <;>
      first
      | exact absurd hnone (by simp)
      | simp [runLoop, process_message, h1, h3, List.count_cons]

/-- Witness for C1 at a concrete behavior and message. -/
theorem c1_single_dispatch_witness :
    okB.handle_message (Message.parse rawA) = none ∧
    ((runLoop okB 1 [ReceiveResult.ok [rawA]]).1).count
      (Event.deleteMessageCall (Message.parse rawA).ReceiptHandle) = 1 :=
  ⟨rfl, (c1_single_dispatch okB rawA).2.1 rfl⟩

/-- C2: for every message, if `handle_message` raises, then no delete call is
issued in that dispatch, `handle_processing_exception` is invoked exactly
once with the original message and the raised exception, and — the callback
returning without raising, as its default does — the loop continues to the
next iteration (a second receive call is issued); deletion only occurs after
the handler call returns without raising. -/
theorem c2_handler_failure (B : Behavior) (r : RawMessage) (e : PyExc)
    (h1 : B.handle_message (Message.parse r) = some e) :
    (∀ h, Event.deleteMessageCall h ∉ (process_message B (Message.parse r)).1) ∧
    ((process_message B (Message.parse r)).1).count
      (Event.handleProcessingExceptionCall (Message.parse r) e) = 1 ∧
    (B.handle_processing_exception (Message.parse r) e = none →
      ((runLoop B 1 [ReceiveResult.ok [r], ReceiveResult.ok []]).1).count
        Event.receiveCall = 2) := by
  refine ⟨fun h => ?_, ?_, fun h3 => ?_⟩ <;>
    simp [runLoop, process_message, h1, List.count_cons, *]

/-- Witness for C2 at a concrete behavior and message. -/
theorem c2_handler_failure_witness :
    failHandlerB.handle_message (Message.parse rawA) = some (PyExc.userExc 1) ∧
    failHandlerB.handle_processing_exception (Message.parse rawA)
      (PyExc.userExc 1) = none ∧
    ((runLoop failHandlerB 1
        [ReceiveResult.ok [rawA], ReceiveResult.ok []]).1).count
      Event.receiveCall = 2 :=
  ⟨rfl, rfl,
    (c2_handler_failure failHandlerB rawA (PyExc.userExc 1) rfl).2.2 rfl⟩

/-- C3: with batch size N > 1 and a receive returning 1 ≤ M ≤ N messages,
`handle_message_batch` is invoked exactly once with the list of all M parsed
messages; if it returns without raising, the batch delete call is issued
exactly once with the (Id, ReceiptHandle) pairs of all M messages; a raising
batch handler is routed exactly once to `handle_batch_processing_exception`
with the full list and the exception and no batch delete call is issued; a
raising batch delete is routed exactly once to the same callback with the
wrapping SQSException; and `handle_message` is never invoked. -/
theorem c3_batch_dispatch (B : Behavior) (n : Int) (hn : 1 < n)
    (r : RawMessage) (rs : List RawMessage)
    (hlen : ((r :: rs).length : Int) ≤ n) :
    ((runLoop B n [ReceiveResult.ok (r :: rs)]).1).count
        (Event.handleMessageBatchCall ((r :: rs).map Message.parse)) = 1 ∧
    (B.handle_message_batch ((r :: rs).map Message.parse) = none →
      ((runLoop B n [ReceiveResult.ok (r :: rs)]).1).count
        (Event.deleteMessageBatchCall
          (batchEntries ((r :: rs).map Message.parse))) = 1) ∧
    (∀ e, B.handle_message_batch ((r :: rs).map Message.parse) = some e →
      ((runLoop B n [ReceiveResult.ok (r :: rs)]).1).count
        (Event.handleBatchProcessingExceptionCall
          ((r :: rs).map Message.parse) e) = 1 ∧
      (∀ es, Event.deleteMessageBatchCall es ∉
        (runLoop B n [ReceiveResult.ok (r :: rs)]).1)) ∧
    (∀ e, B.handle_message_batch ((r :: rs).map Message.parse) = none →
      B.client_delete_message_batch
        (batchEntries ((r :: rs).map Message.parse)) = some e →
      ((runLoop B n [ReceiveResult.ok (r :: rs)]).1).count
        (Event.handleBatchProcessingExceptionCall ((r :: rs).map Message.parse)
          (PyExc.sqsException "Failed to delete message batch" e)) = 1) ∧
    (∀ m, Event.handleMessageCall m ∉
      (runLoop B n [ReceiveResult.ok (r :: rs)]).1) := by
  have hne : ¬ (n = 1) := by omega
  rcases h1 : B.handle_message_batch ((r :: rs).map Message.parse) with _ | e
  · rcases h2 : B.client_delete_message_batch
        (batchEntries ((r :: rs).map Message.parse)) with _ | e2
    · refine ⟨?_, fun _ => ?_, fun e' he' => ?_, fun e' _ hc => ?_, fun m => ?_⟩ <;>
        simp_all [runLoop, process_message_batch, delete_message_batch, hne,
          List.count_cons]
    · rcases h3 : B.handle_batch_processing_exception
          ((r :: rs).map Message.parse)
          (PyExc.sqsException "Failed to delete message batch" e2) with _ | e3 <;>
        refine ⟨?_, fun _ => ?_, fun e' he' => ?_, fun e' _ hc => ?_, fun m => ?_⟩ <;>
        simp_all [runLoop, process_message_batch, delete_message_batch, hne,
          List.count_cons]
  · rcases h3 : B.handle_batch_processing_exception
        ((r :: rs).map Message.parse) e with _ | e3 <;>
      refine ⟨?_, fun hb => ?_, fun e' he' => ?_, fun e' hb hc => ?_, fun m => ?_⟩ <;>
      simp_all [runLoop, process_message_batch, delete_message_batch, hne,
        List.count_cons]

/-- Witness for C3 at batch size 10 and two concrete messages. -/
theorem c3_batch_dispatch_witness :
    (1 : Int) < 10 ∧ (([rawA, rawB].length : Int) ≤ 10) ∧
    okB.handle_message_batch ([rawA, rawB].map Message.parse) = none ∧
    ((runLoop okB 10 [ReceiveResult.ok [rawA, rawB]]).1).count
      (Event.deleteMessageBatchCall
        (batchEntries ([rawA, rawB].map Message.parse))) = 1 :=
  ⟨by norm_num, by norm_num, rfl,
    (c3_batch_dispatch okB 10 (by norm_num) rawA [rawB] (by norm_num)).2.1 rfl⟩

/-- C4: for every integer batch size in [1, 10], the batch-size check does
not raise and construction succeeds (a region being supplied), producing a
Consumer with that batch size; for every integer batch size outside that
range, construction fails with the `ValueError` configuration error and no
Consumer is produced. -/
theorem c4_batch_size_validation (b : Int) (q region tn : String)
    (hr : region ≠ "") (env : Option String)
    (att matt : List String) (w : Int) (v : Option Int) (p : Int)
    (d th : Bool) :
    (1 ≤ b ∧ b ≤ 10 →
      ∃ c : Consumer,
        Consumer.init q (some region) env att matt b w v p d tn th =
          Except.ok c ∧ c.batch_size = b) ∧
    (¬ (1 ≤ b ∧ b ≤ 10) →
      Consumer.init q (some region) env att matt b w v p d tn th =
        Except.error (PyExc.valueError
          "Batch size should be between 1 and 10, both inclusive")) := by
  constructor
  · intro hb
    simp [Consumer.init, hb.1, hb.2, strTruthy, hr]
  · intro hb
    simp [Consumer.init, hb]

/-- Witness for C4 at batch size 5 and region us-east-1. -/
theorem c4_batch_size_validation_witness :
    ("us-east-1" : String) ≠ "" ∧
    ∃ c : Consumer,
      Consumer.init "q" (some "us-east-1") none [] [] 5 1 none 0 true
        "consumer" true = Except.ok c ∧ c.batch_size = 5 :=
  ⟨by decide,
    (c4_batch_size_validation 5 "q" "us-east-1" "consumer" (by decide) none
      [] [] 1 none 0 true true).1 (by norm_num)⟩

/-- C5: a raising transport delete or delete-batch call is attempted exactly
once (never retried) and is wrapped into the distinct `SQSException` kind
with the underlying cause chained, routed to the same exception callback
used for handler failures (`handle_processing_exception` for the single
path, `handle_batch_processing_exception` for the batch path). -/
theorem c5_delete_failure_wrapped (B : Behavior) (m : Message)
    (ms : List Message) (e f : PyExc) :
    (B.handle_message m = none →
      B.client_delete_message m.ReceiptHandle = some e →
      (process_message B m).1.count
        (Event.deleteMessageCall m.ReceiptHandle) = 1 ∧
      (process_message B m).1.count
        (Event.handleProcessingExceptionCall m
          (PyExc.sqsException "Failed to delete message" e)) = 1) ∧
    (B.handle_message_batch ms = none →
      B.client_delete_message_batch (batchEntries ms) = some f →
      (process_message_batch B ms).1.count
        (Event.deleteMessageBatchCall (batchEntries ms)) = 1 ∧
      (process_message_batch B ms).1.count
        (Event.handleBatchProcessingExceptionCall ms
          (PyExc.sqsException "Failed to delete message batch" f)) = 1) := by
  constructor
  · intro h1 h2
    rw [process_message_delete_fail B m e h1 h2]
    constructor <;> simp [List.count_cons]
  · intro h1 h2
    rw [process_message_batch_delete_fail B ms f h1 h2]
    constructor <;> simp [List.count_cons]

/-- Witness for C5 at a concrete behavior whose transport deletes raise. -/
theorem c5_delete_failure_wrapped_witness :
    failDeleteB.handle_message (Message.parse rawA) = none ∧
    failDeleteB.client_delete_message (Message.parse rawA).ReceiptHandle =
      some (PyExc.transportExc 3) ∧
    (process_message failDeleteB (Message.parse rawA)).1.count
      (Event.handleProcessingExceptionCall (Message.parse rawA)
        (PyExc.sqsException "Failed to delete message"
          (PyExc.transportExc 3))) = 1 :=
  ⟨rfl, rfl,
    ((c5_delete_failure_wrapped failDeleteB (Message.parse rawA) []
      (PyExc.transportExc 3) (PyExc.transportExc 4)).1 rfl rfl).2⟩

/-- C6: an exception raised by the receive call is neither caught nor
wrapped: the loop emits only that iteration's receive call (no handler or
callback event), the rest of the script is never consumed, and exactly the
original exception escapes `start`. -/
theorem c6_receive_failure_propagates (B : Behavior) (bs : Int) (e : PyExc)
    (rest : List ReceiveResult) :
    runLoop B bs (ReceiveResult.raise e :: rest) =
      ([Event.receiveCall], some e) := by
  simp [runLoop]

/-- C7: an exception raised from within an exception callback itself is not
caught by the core: it propagates out of the dispatch and out of the loop,
terminating it (the remaining script is never consumed); mirrored for the
batch callback with a batch size greater than one. -/
theorem c7_callback_exception_propagates (B : Behavior) (r : RawMessage)
    (rs : List RawMessage) (e ec eb ecb : PyExc) (rest : List ReceiveResult) :
    (B.handle_message (Message.parse r) = some e →
      B.handle_processing_exception (Message.parse r) e = some ec →
      (process_message B (Message.parse r)).2 = some ec ∧
      runLoop B 1 (ReceiveResult.ok [r] :: rest) =
        (Event.receiveCall :: (process_message B (Message.parse r)).1,
         some ec)) ∧
    (B.handle_message_batch ((r :: rs).map Message.parse) = some eb →
      B.handle_batch_processing_exception
        ((r :: rs).map Message.parse) eb = some ecb →
      (process_message_batch B ((r :: rs).map Message.parse)).2 = some ecb ∧
      runLoop B 2 (ReceiveResult.ok (r :: rs) :: rest) =
        (Event.receiveCall ::
          (process_message_batch B ((r :: rs).map Message.parse)).1,
         some ecb)) := by
  constructor
  · intro h1 h2
    have hp := process_message_handler_fail B (Message.parse r) e h1
    refine ⟨by rw [hp]; exact h2, ?_⟩
    have hd : (if (1 : Int) = 1 then process_message B (Message.parse r)
          else process_message_batch B ((r :: ([] : List RawMessage)).map
            Message.parse)) =
        ((process_message B (Message.parse r)).1, some ec) := by
      simp [hp, h2]
    exact runLoop_dispatch_fail B 1 r [] rest _ ec hd
  · intro h1 h2
    have hp := process_message_batch_handler_fail B
      ((r :: rs).map Message.parse) eb h1
    refine ⟨by rw [hp]; exact h2, ?_⟩
    have hd : (if (2 : Int) = 1 then process_message B (Message.parse r)
          else process_message_batch B ((r :: rs).map Message.parse)) =
        ((process_message_batch B ((r :: rs).map Message.parse)).1,
         some ecb) := by
      rw [if_neg (by norm_num : ¬ (2 : Int) = 1), hp, h2]
    exact runLoop_dispatch_fail B 2 r rs rest _ ecb hd

/-- Witness for C7 at a concrete behavior whose callbacks raise. -/
theorem c7_callback_exception_propagates_witness :
    failCallbackB.handle_message (Message.parse rawA) =
      some (PyExc.userExc 1) ∧
    failCallbackB.handle_processing_exception (Message.parse rawA)
      (PyExc.userExc 1) = some (PyExc.userExc 5) ∧
    (process_message failCallbackB (Message.parse rawA)).2 =
      some (PyExc.userExc 5) :=
  ⟨rfl, rfl,
    ((c7_callback_exception_propagates failCallbackB rawA []
      (PyExc.userExc 1) (PyExc.userExc 5) (PyExc.userExc 2)
      (PyExc.userExc 6) []).1 rfl rfl).1⟩

/-- A concrete consumer configured non-daemon, threaded, with no worker ever
started. -/
def nonDaemonIdle : Consumer :=
  { queue_url := "q", attribute_names := [], message_attribute_names := []
    batch_size := 1, wait_time_seconds := 1, visibility_timeout_seconds := none
    polling_wait_time_ms := 0, daemon := false
    thread_name_stem := "aws_sqs_threadconsumer", threaded := true
    sqs_thread := none, running := true }

/-- The same consumer with the default daemon flag. -/
def daemonIdle : Consumer := { nonDaemonIdle with daemon := true }

/-- C8 counterexample: with daemon false and no worker ever started, stop()
is not a safe no-op for every daemon configuration: `self._sqs_thread.join()`
is a method access on `None` and raises an attribute error instead of
returning. -/
theorem c8_counterexample :
    Consumer.stop nonDaemonIdle =
      Except.error (PyExc.attributeError
        "NoneType object has no attribute join") := rfl

/-- C8 amended: stop() flips the running flag and, when daemon is true (the
default), returns without error whether or not a worker was ever started,
and a second stop() in succession again returns without error or deadlock;
with daemon false the same holds whenever a worker handle exists, but when
no worker was ever started stop() raises an attribute error on the None
thread handle. -/
theorem c8_stop_safety (c : Consumer) :
    (c.daemon = true →
      Consumer.stop c = Except.ok { c with running := false } ∧
      Consumer.stop { c with running := false } =
        Except.ok { c with running := false }) ∧
    (∀ t, c.daemon = false → c.sqs_thread = some t →
      Consumer.stop c = Except.ok { c with running := false } ∧
      Consumer.stop { c with running := false } =
        Except.ok { c with running := false }) ∧
    (c.daemon = false → c.sqs_thread = none →
      Consumer.stop c = Except.error (PyExc.attributeError
        "NoneType object has no attribute join")) := by
  refine ⟨fun hd => ?_, fun t hd ht => ?_, fun hd ht => ?_⟩
  · constructor <;> simp [Consumer.stop, hd]
  · constructor <;> simp [Consumer.stop, hd, ht]
  · simp [Consumer.stop, hd, ht]

/-- Witness for the amended C8 at a concrete daemon consumer. -/
theorem c8_stop_safety_witness :
    daemonIdle.daemon = true ∧
    Consumer.stop daemonIdle = Except.ok { daemonIdle with running := false } ∧
    Consumer.stop { daemonIdle with running := false } =
      Except.ok { daemonIdle with running := false } :=
  ⟨rfl, (c8_stop_safety daemonIdle).1 rfl⟩

/-- Initial spawn state: a freshly constructed threaded consumer with no
worker running. -/
def spawnInit : SpawnState :=
  { consumer :=
      { queue_url := "q", attribute_names := [], message_attribute_names := []
        batch_size := 1, wait_time_seconds := 1
        visibility_timeout_seconds := none, polling_wait_time_ms := 0
        daemon := true, thread_name_stem := "aws_sqs_threadconsumer"
        threaded := true, sqs_thread := none, running := false }
    live_workers := [] }

/-- C9 counterexample: invoking start_consumer a second time on the same
consumer object launches a second concurrent polling worker, so the number
of workers polling on behalf of one Consumer is not at most one. -/
theorem c9_counterexample :
    ¬ (List.length
        (start_consumer (start_consumer spawnInit "u1") "u2").live_workers ≤ 1) := by
  decide

/-- C9 amended: nothing in start_consumer guards against a worker already
running: with threaded true, every invocation launches one more background
worker (named thread-name stem plus fresh uuid) polling for the same
consumer and overwrites the stored thread handle, so a second invocation
while a worker is already running yields two concurrent loop workers. -/
theorem c9_spawn_unguarded (s : SpawnState) (u : String)
    (h : s.consumer.threaded = true) :
    (start_consumer s u).live_workers =
      s.live_workers ++ [s.consumer.thread_name_stem ++ u] ∧
    (start_consumer s u).consumer.sqs_thread =
      some (s.consumer.thread_name_stem ++ u) := by
  constructor <;> simp [start_consumer, h]

/-- Witness for the amended C9 at the concrete initial spawn state. -/
theorem c9_spawn_unguarded_witness :
    spawnInit.consumer.threaded = true ∧
    (start_consumer spawnInit "u1").live_workers =
      spawnInit.live_workers ++ [spawnInit.consumer.thread_name_stem ++ "u1"] :=
  ⟨rfl, (c9_spawn_unguarded spawnInit "u1" rfl).1⟩

/-- C10: with batch size 1 and a receive response containing more than one
message, only the first parsed message is dispatched to handle_message and,
on success, deleted; every other message of the response is neither handled
nor deleted nor passed to any exception callback in that iteration. -/
theorem c10_extra_messages_dropped (B : Behavior) (r r2 : RawMessage)
    (rs : List RawMessage) :
    (∀ m, Event.handleMessageCall m ∈
        (runLoop B 1 [ReceiveResult.ok (r :: r2 :: rs)]).1 →
      m = Message.parse r) ∧
    ((runLoop B 1 [ReceiveResult.ok (r :: r2 :: rs)]).1).count
      (Event.handleMessageCall (Message.parse r)) = 1 ∧
    (∀ h, Event.deleteMessageCall h ∈
        (runLoop B 1 [ReceiveResult.ok (r :: r2 :: rs)]).1 →
      h = (Message.parse r).ReceiptHandle) ∧
    (B.handle_message (Message.parse r) = none →
      ((runLoop B 1 [ReceiveResult.ok (r :: r2 :: rs)]).1).count
        (Event.deleteMessageCall (Message.parse r).ReceiptHandle) = 1) ∧
    (∀ m e, Event.handleProcessingExceptionCall m e ∈
        (runLoop B 1 [ReceiveResult.ok (r :: r2 :: rs)]).1 →
      m = Message.parse r) ∧
    (∀ ms, Event.handleMessageBatchCall ms ∉
      (runLoop B 1 [ReceiveResult.ok (r :: r2 :: rs)]).1) ∧
    (∀ ms e, Event.handleBatchProcessingExceptionCall ms e ∉
      (runLoop B 1 [ReceiveResult.ok (r :: r2 :: rs)]).1) := by
  rcases h1 : B.handle_message (Message.parse r) with _ | e
  · rcases h2 : B.client_delete_message (Message.parse r).ReceiptHandle with _ | e2
    · refine ⟨?_, ?_, ?_, fun _ => ?_, ?_, ?_, ?_⟩ <;>
        simp [runLoop, process_message, delete_message, h1, h2,
          List.count_cons]
    · rcases h3 : B.handle_processing_exception (Message.parse r)
          (PyExc.sqsException "Failed to delete message" e2) with _ | e3 <;>
        refine ⟨?_, ?_, ?_, fun _ => ?_, ?_, ?_, ?_⟩ <;>
        simp [runLoop, process_message, delete_message, h1, h2, h3,
          List.count_cons]
  · rcases h3 : B.handle_processing_exception (Message.parse r) e with _ | e3 <;>
      refine ⟨?_, ?_, ?_, fun hnone => ?_, ?_, ?_, ?_⟩ <;>
      first
      | exact absurd hnone (by simp)
      | simp [runLoop, process_message, h1, h3, List.count_cons]

/-- Witness for C10 at a concrete behavior and a two-message response. -/
theorem c10_extra_messages_dropped_witness :
    okB.handle_message (Message.parse rawA) = none ∧
    ((runLoop okB 1 [ReceiveResult.ok [rawA, rawB]]).1).count
      (Event.deleteMessageCall (Message.parse rawA).ReceiptHandle) = 1 :=
  ⟨rfl, (c10_extra_messages_dropped okB rawA rawB []).2.2.2.1 rfl⟩

end AwsSqsConsumer
